import Mathlib

/-!
Shallow embedding of `src/charm.py` (nginx-ingress-integrator operator,
class `CharmK8SIngressCharm`) for verification of the specification's claims.

Python values that flow through the charm's configuration and relation data
are modelled by `PyVal` (None, str, int).  Python truthiness, `a or b`,
`"...".format(x)`, `str(x)`, `int(x)` and `x.upper()` are modelled explicitly;
the fallible builtins return `Option` (Option.none = the call raises).
Dictionaries are association lists; `d.get(k)` returning `None` for an absent
key coincides with a key stored with value `None`, exactly as in Python.
-/

namespace Charm

/-- A Python value as it appears in charm config / relation data. -/
inductive PyVal where
  | none
  | str (s : String)
  | int (n : Int)
deriving Repr, DecidableEq

/-- Python truthiness: `None` and empty string and `0` are falsy. -/
def PyVal.truthy : PyVal → Bool
  | .none => false
  | .str s => s ≠ ""
  | .int n => n ≠ 0

/-- Python `a or b`: `a` if truthy, else `b`. -/
def pyOr (a b : PyVal) : PyVal := if a.truthy then a else b

/-- Python `"...".format(x)` / `str(x)` rendering of a value. -/
def PyVal.format : PyVal → String
  | .none => "None"
  | .str s => s
  | .int n => toString n

/-- The numeric value of a decimal digit character, `Option.none` on any
other character. -/
def digitVal (c : Char) : Option Nat :=
  if c.toNat < 48 ∨ 57 < c.toNat then Option.none else some (c.toNat - 48)

/-- Parse a non-empty run of decimal digits. -/
def parseNatAux : List Char → Nat → Option Nat
  | [], acc => some acc
  | c :: cs, acc =>
    match digitVal c with
    | some d => parseNatAux cs (10 * acc + d)
    | Option.none => Option.none

/-- Parse a non-empty digit string as a natural number. -/
def parseNat (cs : List Char) : Option Nat :=
  if cs.isEmpty then Option.none else parseNatAux cs 0

/-- Python `int(s)` on a string (modelled for the ASCII values that occur
here): optional surrounding spaces, an optional sign, then one or more
decimal digits; anything else raises ValueError (`Option.none`). -/
def pyIntOfString (s : String) : Option Int :=
  match ((s.data.dropWhile (· == ' ')).reverse.dropWhile (· == ' ')).reverse with
  | '-' :: rest => (parseNat rest).map (fun n => -(n : Int))
  | '+' :: rest => (parseNat rest).map (fun n => (n : Int))
  | rest => (parseNat rest).map (fun n => (n : Int))

/-- Python `int(x)`: `int(None)` raises TypeError, `int(s)` raises ValueError
when `s` is not a numeric literal. -/
def pyInt : PyVal → Option Int
  | .none => Option.none
  | .str s => pyIntOfString s
  | .int n => some n

/-- Python `x.upper()`: only defined on strings (upper-cases every
character), raises AttributeError otherwise (in particular on `None`). -/
def PyVal.upper : PyVal → Option String
  | .str s => some (List.asString (s.data.map Char.toUpper))
  | _ => Option.none

/-- A Python dict with string keys, as stored in
`self._stored.ingress_relation_data`.  Values may be `PyVal.none` (the
relation-changed handler stores `None` for fields absent from the databag). -/
abbrev Dict := List (String × PyVal)

/-- Python `d.get(k)`: the value at `k`, or `None` when the key is absent. -/
def dictGet (d : Dict) (k : String) : PyVal :=
  match d.lookup k with
  | some v => v
  | Option.none => PyVal.none

/-- A Juju relation databag (`relation.data[app]`): string keys to string
values. -/
abbrev Databag := List (String × String)

/-- `relation.data[app].get(field)`: the string value, or `None` when the
field is absent from the databag. -/
def databagGet (b : Databag) (k : String) : PyVal :=
  match b.lookup k with
  | some v => PyVal.str v
  | Option.none => PyVal.none

/-- `dict(relation.data[relation.app].items())` as built by
`_get_ingress_relation_data`: every databag entry kept, values as strings. -/
def dictOfDatabag (b : Databag) : Dict := b.map (fun p => (p.1, PyVal.str p.2))

/-- `REQUIRED_INGRESS_RELATION_FIELDS` (a Python set; listed here in the
alphabetical order `sorted` would produce). -/
def REQUIRED_INGRESS_RELATION_FIELDS : List String :=
  ["service-hostname", "service-name", "service-port"]

/-- `OPTIONAL_INGRESS_RELATION_FIELDS`. -/
def OPTIONAL_INGRESS_RELATION_FIELDS : List String :=
  ["max-body-size", "service-namespace", "session-cookie-max-age", "tls-secret-name"]

/-- The union `REQUIRED_INGRESS_RELATION_FIELDS | OPTIONAL_INGRESS_RELATION_FIELDS`
iterated by `_on_ingress_relation_changed` (set iteration order is arbitrary in
Python; the order below is immaterial because the result is a dict). -/
def ALL_INGRESS_RELATION_FIELDS : List String :=
  REQUIRED_INGRESS_RELATION_FIELDS ++ OPTIONAL_INGRESS_RELATION_FIELDS

/-- `missing_fields` as computed by `_ingress_relation_errors`:
`sorted([field for field in REQUIRED_INGRESS_RELATION_FIELDS if
ingress_data.get(field) is None])`. -/
def missingFields (d : Dict) : List String :=
  List.insertionSort (· ≤ ·)
    (REQUIRED_INGRESS_RELATION_FIELDS.filter (fun f => dictGet d f == PyVal.none))

/-- `_ingress_relation_errors` return value: `True` iff `missing_fields` is
non-empty. -/
def ingressRelationErrors (d : Dict) : Bool := missingFields d ≠ []

/-- The `BlockedStatus` message set by `_ingress_relation_errors` when fields
are missing. -/
def blockedMessage (d : Dict) : String :=
  "Missing fields for ingress: " ++ String.intercalate ", " (missingFields d)

/-- The charm's local configuration (`self.config[...]`), one `PyVal` per
recognized key used by the reconciliation core. -/
structure Config where
  service_hostname : PyVal
  service_name : PyVal
  service_port : PyVal
  service_namespace : PyVal
  max_body_size : PyVal
  session_cookie_max_age : PyVal
  tls_secret_name : PyVal
deriving Repr, DecidableEq

/-- The state the resolver properties read: local config, the stored relation
data cache, and the ambient model name (`self.model.name`). -/
structure State where
  config : Config
  ingress_relation_data : Dict
  modelName : String
deriving Repr, DecidableEq

/-- `_service_hostname`. -/
def serviceHostname (s : State) : PyVal :=
  pyOr s.config.service_hostname (dictGet s.ingress_relation_data "service-hostname")

/-- `_service_name`. -/
def serviceName (s : State) : PyVal :=
  pyOr s.config.service_name (dictGet s.ingress_relation_data "service-name")

/-- `_k8s_service_name`: `"{}-service".format(self._service_name)`. -/
def k8sServiceName (s : State) : String := (serviceName s).format ++ "-service"

/-- `_ingress_name`: `"{}-ingress".format(self.config["service-name"] or
self._stored.ingress_relation_data.get("service-name"))`. -/
def ingressName (s : State) : String :=
  (pyOr s.config.service_name (dictGet s.ingress_relation_data "service-name")).format
    ++ "-ingress"

/-- `_max_body_size`: resolved value suffixed with `"m"`, or `""` when falsy. -/
def maxBodySize (s : State) : String :=
  let m := pyOr s.config.max_body_size (dictGet s.ingress_relation_data "max-body-size")
  if m.truthy then m.format ++ "m" else ""

/-- `_namespace`: config, else stored relation data, else the model name. -/
def theNamespace (s : State) : PyVal :=
  pyOr s.config.service_namespace
    (pyOr (dictGet s.ingress_relation_data "service-namespace") (PyVal.str s.modelName))

/-- `_service_port`: `self.config["service-port"] or
int(self._stored.ingress_relation_data.get("service-port"))`.  The config
value is returned unconverted when truthy; otherwise `int(...)` is applied to
the stored value and may raise (`Option.none`). -/
def servicePort (s : State) : Option PyVal :=
  if s.config.service_port.truthy then some s.config.service_port
  else (pyInt (dictGet s.ingress_relation_data "service-port")).map PyVal.int

/-- `_session_cookie_max_age`: `str(...)` of the resolved value, or `""` when
falsy. -/
def sessionCookieMaxAge (s : State) : String :=
  let v := pyOr s.config.session_cookie_max_age
    (dictGet s.ingress_relation_data "session-cookie-max-age")
  if v.truthy then v.format else ""

/-- `_tls_secret_name`. -/
def tlsSecretName (s : State) : PyVal :=
  pyOr s.config.tls_secret_name (dictGet s.ingress_relation_data "tls-secret-name")

/-! ## Resource builders (`_get_k8s_service`, `_get_k8s_ingress`) -/

/-- `kubernetes.client.V1ServicePort` (the fields the charm sets). -/
structure V1ServicePort where
  portName : String
  port : PyVal
  target_port : PyVal
deriving Repr, DecidableEq

/-- `kubernetes.client.V1Service` (the fields the charm sets): name, the
single-key selector dict, and the port list. -/
structure V1Service where
  name : String
  selector : List (String × PyVal)
  ports : List V1ServicePort
deriving Repr, DecidableEq

/-- `NetworkingV1beta1IngressBackend`. -/
structure IngressBackend where
  service_name : String
  service_port : PyVal
deriving Repr, DecidableEq

/-- `NetworkingV1beta1HTTPIngressPath`. -/
structure HTTPIngressPath where
  path : String
  backend : IngressBackend
deriving Repr, DecidableEq

/-- `NetworkingV1beta1IngressRule`. -/
structure IngressRule where
  host : PyVal
  paths : List HTTPIngressPath
deriving Repr, DecidableEq

/-- `NetworkingV1beta1IngressTLS`. -/
structure IngressTLS where
  hosts : List PyVal
  secret_name : PyVal
deriving Repr, DecidableEq

/-- `NetworkingV1beta1IngressSpec`: the rules, and the optional `tls`
attribute (unset unless the charm assigns it). -/
structure IngressSpec where
  rules : List IngressRule
  tls : Option IngressTLS
deriving Repr, DecidableEq

/-- `NetworkingV1beta1Ingress` (the fields the charm sets): name, the
annotation dict in insertion order, and the spec. -/
structure V1Ingress where
  name : String
  annotations : List (String × String)
  spec : IngressSpec
deriving Repr, DecidableEq

/-- `_get_k8s_service`.  `Option.none` when `_service_port` raises. -/
def getK8sService (s : State) : Option V1Service :=
  (servicePort s).map (fun port =>
    { name := k8sServiceName s
      selector := [("app.kubernetes.io/name", serviceName s)]
      ports := [{ portName := "tcp-" ++ port.format, port := port, target_port := port }] })

/-- The six annotations inserted by the `if self._session_cookie_max_age:`
branch of `_get_k8s_ingress`, in insertion order; `up` is
`self._service_name.upper()`. -/
def stickyAnnotations (s : State) (up : String) : List (String × String) :=
  [ ("nginx.ingress.kubernetes.io/affinity", "cookie")
  , ("nginx.ingress.kubernetes.io/affinity-mode", "balanced")
  , ("nginx.ingress.kubernetes.io/session-cookie-change-on-failure", "true")
  , ("nginx.ingress.kubernetes.io/session-cookie-max-age", sessionCookieMaxAge s)
  , ("nginx.ingress.kubernetes.io/session-cookie-name", up ++ "_AFFINITY")
  , ("nginx.ingress.kubernetes.io/session-cookie-samesite", "Lax") ]

/-- The annotation dict built by `_get_k8s_ingress` before its
`if self._tls_secret_name:` branch: the always-present rewrite-target entry,
then the optional proxy-body-size entry, then the optional sticky-session
block (`Option.none` when `self._service_name.upper()` raises there). -/
def preTlsAnnotations (s : State) : Option (List (String × String)) :=
  let baseAnns : List (String × String) :=
    [("nginx.ingress.kubernetes.io/rewrite-target", "/")]
  let anns1 :=
    if maxBodySize s ≠ "" then
      baseAnns ++ [("nginx.ingress.kubernetes.io/proxy-body-size", maxBodySize s)]
    else baseAnns
  if sessionCookieMaxAge s ≠ "" then
    ((serviceName s).upper).map (fun up => anns1 ++ stickyAnnotations s up)
  else some anns1

/-- The full annotation dict of `_get_k8s_ingress`: the ssl-redirect entry is
appended exactly when there is no truthy tls secret. -/
def ingressAnnotations (s : State) : Option (List (String × String)) :=
  (preTlsAnnotations s).map (fun anns =>
    if (tlsSecretName s).truthy then anns
    else anns ++ [("nginx.ingress.kubernetes.io/ssl-redirect", "false")])

/-- The `NetworkingV1beta1Ingress` object `_get_k8s_ingress` returns, given
the evaluated service port and annotation dict: one rule for the service
hostname with the single path `/` backed by the derived service, and the tls
block attached exactly when the tls secret is truthy. -/
def buildIngress (s : State) (port : PyVal) (anns : List (String × String)) : V1Ingress :=
  { name := ingressName s
    annotations := anns
    spec :=
      { rules :=
          [ { host := serviceHostname s
              paths :=
                [ { path := "/"
                    backend :=
                      { service_port := port, service_name := k8sServiceName s } } ] } ]
        tls :=
          if (tlsSecretName s).truthy then
            some { hosts := [serviceHostname s], secret_name := tlsSecretName s }
          else Option.none } }

/-- `_get_k8s_ingress`.  `Option.none` when `_service_port` raises (the spec's
backend is built first) or when `self._service_name.upper()` raises in the
session-cookie branch. -/
def getK8sIngress (s : State) : Option V1Ingress :=
  match servicePort s, ingressAnnotations s with
  | some port, some anns => some (buildIngress s port anns)
  | _, _ => Option.none

/-! ## Reconciler (`_define_service`, `_define_ingress`, `_report_service_ips`)

The cluster is modelled as the set of namespaced Service / Ingress resources
visible to the list calls; the Kubernetes API calls the charm issues are
reified as an `ApiCall` trace. -/

/-- A Service resource living in the cluster (the cluster assigns
`cluster_ip`). -/
structure ClusterService where
  ns : PyVal
  name : String
  cluster_ip : String
deriving Repr, DecidableEq

/-- An Ingress resource living in the cluster. -/
structure ClusterIngress where
  ns : PyVal
  name : String
deriving Repr, DecidableEq

/-- The cluster state the list calls observe. -/
structure Cluster where
  services : List ClusterService
  ingresses : List ClusterIngress
deriving Repr, DecidableEq

/-- A Kubernetes API call issued by the charm. -/
inductive ApiCall where
  | listServices (ns : PyVal)
  | createService (ns : PyVal) (body : V1Service)
  | patchService (name : String) (ns : PyVal) (body : V1Service)
  | listIngresses (ns : PyVal)
  | createIngress (ns : PyVal) (body : V1Ingress)
  | patchIngress (name : String) (ns : PyVal) (body : V1Ingress)
deriving Repr, DecidableEq

/-- Is the call a create? -/
def ApiCall.isCreate : ApiCall → Bool
  | .createService _ _ => true
  | .createIngress _ _ => true
  | _ => false

/-- Is the call a patch? -/
def ApiCall.isPatch : ApiCall → Bool
  | .patchService _ _ _ => true
  | .patchIngress _ _ _ => true
  | _ => false

/-- Is the call a cluster mutation (create or patch)? -/
def ApiCall.isMutation (c : ApiCall) : Bool := c.isCreate || c.isPatch

/-- `[x.metadata.name for x in api.list_namespaced_service(namespace=...).items]`. -/
def listServiceNames (s : State) (c : Cluster) : List String :=
  (c.services.filter (fun x => x.ns == theNamespace s)).map (fun x => x.name)

/-- `[x.metadata.name for x in api.list_namespaced_ingress(namespace=...).items]`. -/
def listIngressNames (s : State) (c : Cluster) : List String :=
  (c.ingresses.filter (fun x => x.ns == theNamespace s)).map (fun x => x.name)

/-- `_define_service`: build the body, list existing services in the target
namespace, then patch when the deterministic name is present, else create.
`Option.none` when building the body raises. -/
def defineService (s : State) (c : Cluster) : Option (List ApiCall) :=
  (getK8sService s).map (fun body =>
    if k8sServiceName s ∈ listServiceNames s c then
      [ApiCall.listServices (theNamespace s),
       ApiCall.patchService (k8sServiceName s) (theNamespace s) body]
    else
      [ApiCall.listServices (theNamespace s),
       ApiCall.createService (theNamespace s) body])

/-- `_define_ingress`: same create-or-update flow for the ingress. -/
def defineIngress (s : State) (c : Cluster) : Option (List ApiCall) :=
  (getK8sIngress s).map (fun body =>
    if ingressName s ∈ listIngressNames s c then
      [ApiCall.listIngresses (theNamespace s),
       ApiCall.patchIngress (ingressName s) (theNamespace s) body]
    else
      [ApiCall.listIngresses (theNamespace s),
       ApiCall.createIngress (theNamespace s) body])

/-- Effect of one API call on the cluster's resource sets: a create adds a
resource with the body's name in the target namespace (the cluster assigns the
IP, modelled as `""` — no claim depends on it); list and patch leave the set
of resource names unchanged. -/
def applyCall (c : Cluster) : ApiCall → Cluster
  | .createService ns body => { c with services := ⟨ns, body.name, ""⟩ :: c.services }
  | .createIngress ns body => { c with ingresses := ⟨ns, body.name⟩ :: c.ingresses }
  | _ => c

/-- Effect of a call trace on the cluster. -/
def applyCalls (c : Cluster) (calls : List ApiCall) : Cluster :=
  calls.foldl applyCall c

/-- `_report_service_ips`: cluster IPs of the services in the target
namespace whose name is the deterministic service name. -/
def reportServiceIps (s : State) (c : Cluster) : List String :=
  ((c.services.filter (fun x => x.ns == theNamespace s)).filter
      (fun x => x.name == k8sServiceName s)).map (fun x => x.cluster_ip)

/-! ## Event handlers -/

/-- A unit status set by a handler. -/
inductive Status where
  | active (msg : String)
  | blocked (msg : String)
deriving Repr, DecidableEq

/-- Observable outcome of a handler run: the resulting
`_stored.ingress_relation_data`, the status it set (if any), and the trace of
Kubernetes API calls it issued. -/
structure HandlerResult where
  stored : Dict
  status : Option Status
  calls : List ApiCall
deriving Repr, DecidableEq

/-- `_on_config_changed`: when the unit is the leader and `_service_name` is
truthy, define the service and the ingress and report the service IPs in an
active status; otherwise set an empty active status and issue no call.
`Option.none` when a define step raises. -/
def onConfigChanged (s : State) (leader : Bool) (c : Cluster) : Option HandlerResult :=
  if leader && (serviceName s).truthy then do
    let svcCalls ← defineService s c
    let c1 := applyCalls c svcCalls
    let ingCalls ← defineIngress s c1
    let c2 := applyCalls c1 ingCalls
    let ips := reportServiceIps s c2
    some
      { stored := s.ingress_relation_data
        status := some (Status.active ("Ingress with service IP(s): " ++
          String.intercalate ", " ips))
        calls := svcCalls ++ ingCalls ++ [ApiCall.listServices (theNamespace s)] }
  else
    some { stored := s.ingress_relation_data, status := some (Status.active ""), calls := [] }

/-- The `ingress_data` dict built by `_on_ingress_relation_changed`: one entry
per required-or-optional field, value `relation.data[app].get(field)`. -/
def changedDict (ev : Databag) : Dict :=
  ALL_INGRESS_RELATION_FIELDS.map (fun f => (f, databagGet ev f))

/-- `_on_ingress_relation_changed`: non-leaders return immediately; otherwise
the payload is validated, and only on success is it stored and
`_on_config_changed` invoked. -/
def onIngressRelationChanged (cfg : Config) (stored : Dict) (modelName : String)
    (leader : Bool) (ev : Databag) (c : Cluster) : Option HandlerResult :=
  if !leader then some { stored := stored, status := Option.none, calls := [] }
  else
    let ingress_data := changedDict ev
    if ingressRelationErrors ingress_data then
      some { stored := stored
             status := some (Status.blocked (blockedMessage ingress_data))
             calls := [] }
    else
      (onConfigChanged { config := cfg, ingress_relation_data := ingress_data,
                         modelName := modelName } leader c).map
        (fun r => { r with stored := ingress_data })

/-- `_get_ingress_relation_data`: read the live ingress relation databag (if
the relation is present), validate it, and overwrite the stored cache only
when validation passes; first component is the resulting stored dict, second
the blocked status set on validation failure. -/
def getIngressRelationData (stored : Dict) :
    Option Databag → Dict × Option Status
  | Option.none => (stored, Option.none)
  | some rel =>
      let ingress_data := dictOfDatabag rel
      if ingressRelationErrors ingress_data then
        (stored, some (Status.blocked (blockedMessage ingress_data)))
      else (ingress_data, Option.none)

/-- `_on_upgrade_charm`: StoredState was reset by the upgrade (per the
handler's own comment), so the handler runs with an empty cache and resyncs it
from the live relation data; a config-changed event follows separately. -/
def onUpgradeCharm (rel : Option Databag) : Dict × Option Status :=
  getIngressRelationData [] rel

/-- The canonical desired-state record: the value of every resolver property
(reading the port may raise, hence `Option`). -/
structure Canonical where
  hostname : PyVal
  name : PyVal
  port : Option PyVal
  ns : PyVal
  maxBody : String
  cookieAge : String
  tls : PyVal
deriving Repr, DecidableEq

/-- Resolve every canonical attribute of a state. -/
def canonical (s : State) : Canonical :=
  { hostname := serviceHostname s
    name := serviceName s
    port := servicePort s
    ns := theNamespace s
    maxBody := maxBodySize s
    cookieAge := sessionCookieMaxAge s
    tls := tlsSecretName s }

/-- A configuration with no overrides set (every key falsy/unset). -/
def emptyConfig : Config :=
  { service_hostname := PyVal.none
    service_name := PyVal.none
    service_port := PyVal.none
    service_namespace := PyVal.none
    max_body_size := PyVal.none
    session_cookie_max_age := PyVal.none
    tls_secret_name := PyVal.none }

/-! ## Concrete example inputs used to instantiate the theorems -/

/-- Example configuration with every key set (all truthy). -/
def cfgFull : Config :=
  { service_hostname := PyVal.str "cfg-host"
    service_name := PyVal.str "cfg-name"
    service_port := PyVal.int 9000
    service_namespace := PyVal.str "cfg-ns"
    max_body_size := PyVal.str "10"
    session_cookie_max_age := PyVal.str "7200"
    tls_secret_name := PyVal.str "cfg-tls" }

/-- Example stored relation payload with every field present. -/
def relFull : Dict :=
  [ ("service-hostname", PyVal.str "rel-host")
  , ("service-name", PyVal.str "rel-name")
  , ("service-port", PyVal.str "8080")
  , ("service-namespace", PyVal.str "rel-ns")
  , ("max-body-size", PyVal.str "20")
  , ("session-cookie-max-age", PyVal.str "3600")
  , ("tls-secret-name", PyVal.str "rel-tls") ]

/-- Both sources populated. -/
def sBoth : State :=
  { config := cfgFull, ingress_relation_data := relFull, modelName := "the-model" }

/-- No configuration, cache populated. -/
def sRelOnly : State :=
  { config := emptyConfig, ingress_relation_data := relFull, modelName := "the-model" }

/-- Neither source populated. -/
def sEmpty : State :=
  { config := emptyConfig, ingress_relation_data := [], modelName := "the-model" }

/-- No configuration; the cached payload's service-port is not numeric. -/
def sBadPort : State :=
  { config := emptyConfig
    ingress_relation_data := [("service-port", PyVal.str "eighty")]
    modelName := "the-model" }

/-- State resolving to a session cookie but no tls secret and no body size. -/
def sCookie : State :=
  { config := emptyConfig
    ingress_relation_data := changedDict
      [ ("service-hostname", "web.example.com"), ("service-name", "web")
      , ("service-port", "8080"), ("session-cookie-max-age", "3600") ]
    modelName := "the-model" }

/-- A cluster with no resources. -/
def emptyCluster : Cluster := { services := [], ingresses := [] }

/-- A relation databag whose required service-hostname is present but empty. -/
def evEmptyHostname : Databag :=
  [("service-hostname", ""), ("service-name", "x"), ("service-port", "80")]

/-- A relation databag missing two required fields. -/
def evMissing : Databag := [("service-name", "x")]

/-- Relation databag cached before an upgrade (validates cleanly). -/
def relBefore : Databag :=
  [("service-hostname", "host-a"), ("service-name", "app-a"), ("service-port", "80")]

/-- The same relation's databag at upgrade time, hostname since changed. -/
def relAtUpgrade : Databag :=
  [("service-hostname", "host-b"), ("service-name", "app-a"), ("service-port", "80")]

/-- The ingress built from `sBoth` (used to instantiate theorems). -/
def ingBoth : V1Ingress := (getK8sIngress sBoth).getD (buildIngress sBoth PyVal.none [])

/-- The ingress built from `sCookie`. -/
def ingCookie : V1Ingress := (getK8sIngress sCookie).getD (buildIngress sCookie PyVal.none [])

/-- The ingress built from `sRelOnly`. -/
def ingRelOnly : V1Ingress := (getK8sIngress sRelOnly).getD (buildIngress sRelOnly PyVal.none [])

/-- The service built from `sRelOnly`. -/
def svcRelOnly : V1Service :=
  (getK8sService sRelOnly).getD { name := "", selector := [], ports := [] }

/-- First reconcile call trace for the service of `sRelOnly` on an empty
cluster. -/
def callsFirst : List ApiCall := (defineService sRelOnly emptyCluster).getD []

/-- Second reconcile call trace, after the first trace was applied. -/
def callsSecond : List ApiCall :=
  (defineService sRelOnly (applyCalls emptyCluster callsFirst)).getD []

/-! ## Helper lemmas -/

theorem mem_missingFields (d : Dict) (f : String) :
    f ∈ missingFields d ↔
      f ∈ REQUIRED_INGRESS_RELATION_FIELDS ∧ dictGet d f = PyVal.none := by
  unfold missingFields
  rw [(List.perm_insertionSort _ _).mem_iff, List.mem_filter]
  simp

theorem sorted_missingFields (d : Dict) :
    List.Sorted (· ≤ ·) (missingFields d) :=
  List.sorted_insertionSort _ _

theorem errors_iff (d : Dict) :
    ingressRelationErrors d = true ↔
      ∃ f ∈ REQUIRED_INGRESS_RELATION_FIELDS, dictGet d f = PyVal.none := by
  unfold ingressRelationErrors
  rw [decide_eq_true_iff]
  constructor
  · intro h
    obtain ⟨f, hf⟩ := List.exists_mem_of_ne_nil _ h
    exact ⟨f, ((mem_missingFields d f).mp hf).1, ((mem_missingFields d f).mp hf).2⟩
  · rintro ⟨f, hmem, hnone⟩ hnil
    exact absurd ((mem_missingFields d f).mpr ⟨hmem, hnone⟩) (by simp [hnil])

theorem dictGet_dictOfDatabag (b : Databag) (f : String) :
    dictGet (dictOfDatabag b) f = databagGet b f := by
  induction b with
  | nil => rfl
  | cons p rest ih =>
    by_cases h : p.1 = f
    · simp [dictOfDatabag, dictGet, databagGet, List.lookup, h]
    · simp only [dictOfDatabag, dictGet, databagGet, List.lookup] at *
      rw [show (f == p.1) = false by simp [Ne.symm h]]
      simpa [dictOfDatabag, dictGet, databagGet] using ih

theorem dictGet_changedDict (ev : Databag) (f : String)
    (h : f ∈ ALL_INGRESS_RELATION_FIELDS) :
    dictGet (changedDict ev) f = databagGet ev f := by
  fin_cases h <;> rfl

theorem getK8sIngress_eq (s : State) (ing : V1Ingress)
    (h : getK8sIngress s = some ing) :
    ∃ port anns, servicePort s = some port ∧ ingressAnnotations s = some anns ∧
      ing = buildIngress s port anns := by
  unfold getK8sIngress at h
  cases hp : servicePort s <;> cases ha : ingressAnnotations s <;>
    rw [hp, ha] at h <;> simp at h
  exact ⟨_, _, rfl, rfl, h.symm⟩

theorem annotations_lookup (s : State) (anns : List (String × String))
    (h : ingressAnnotations s = some anns) :
    anns.lookup "nginx.ingress.kubernetes.io/rewrite-target" = some "/"
    ∧ anns.lookup "nginx.ingress.kubernetes.io/proxy-body-size" =
        (if maxBodySize s ≠ "" then some (maxBodySize s) else Option.none)
    ∧ anns.lookup "nginx.ingress.kubernetes.io/affinity" =
        (if sessionCookieMaxAge s ≠ "" then some "cookie" else Option.none)
    ∧ anns.lookup "nginx.ingress.kubernetes.io/affinity-mode" =
        (if sessionCookieMaxAge s ≠ "" then some "balanced" else Option.none)
    ∧ anns.lookup "nginx.ingress.kubernetes.io/session-cookie-change-on-failure" =
        (if sessionCookieMaxAge s ≠ "" then some "true" else Option.none)
    ∧ anns.lookup "nginx.ingress.kubernetes.io/session-cookie-max-age" =
        (if sessionCookieMaxAge s ≠ "" then some (sessionCookieMaxAge s) else Option.none)
    ∧ anns.lookup "nginx.ingress.kubernetes.io/session-cookie-name" =
        (if sessionCookieMaxAge s ≠ "" then
          ((serviceName s).upper).map (fun u => u ++ "_AFFINITY") else Option.none)
    ∧ anns.lookup "nginx.ingress.kubernetes.io/session-cookie-samesite" =
        (if sessionCookieMaxAge s ≠ "" then some "Lax" else Option.none)
    ∧ anns.lookup "nginx.ingress.kubernetes.io/ssl-redirect" =
        (if (tlsSecretName s).truthy then Option.none else some "false") := by
  unfold ingressAnnotations preTlsAnnotations at h
  by_cases hc : sessionCookieMaxAge s ≠ ""
  · rw [if_pos hc] at h
    cases hu : (serviceName s).upper with
    | none => rw [hu] at h; simp at h
    | some u =>
      rw [hu] at h
      simp only [Option.map_some', Option.some.injEq] at h
      subst h
      by_cases hb : maxBodySize s ≠ "" <;>
        by_cases ht : (tlsSecretName s).truthy <;>
          simp [hb, hc, ht, hu, stickyAnnotations, List.lookup]
  · rw [if_neg hc] at h
    simp only [Option.map_some', Option.some.injEq] at h
    subst h
    by_cases hb : maxBodySize s ≠ "" <;>
      by_cases ht : (tlsSecretName s).truthy <;>
        simp [hb, hc, ht, List.lookup]

theorem length_le_toDigitsCore (b : Nat) :
    ∀ (f n : Nat) (ds : List Char), ds.length ≤ (Nat.toDigitsCore b f n ds).length := by
  intro f
  induction f with
  | zero => intro n ds; simp [Nat.toDigitsCore]
  | succ f ih =>
    intro n ds
    simp only [Nat.toDigitsCore]
    split
    · simp
    · exact le_trans (by simp) (ih _ _)

theorem toDigits_ne_nil (b n : Nat) : Nat.toDigits b n ≠ [] := by
  unfold Nat.toDigits Nat.toDigitsCore
  by_cases h : n / b = 0
  · simp [h]
  · simp only [h, if_false]
    intro hcon
    have h1 := length_le_toDigitsCore b n (n / b) [Nat.digitChar (n % b)]
    rw [hcon] at h1
    simp at h1

theorem natRepr_ne_empty (n : Nat) : Nat.repr n ≠ "" := by
  unfold Nat.repr
  intro h
  have h2 : Nat.toDigits 10 n = [] := by
    have := congrArg String.data h
    simpa [List.asString] using this
  exact toDigits_ne_nil 10 n h2

theorem toString_int_ne_empty (n : Int) : toString n ≠ "" := by
  cases n with
  | ofNat m => exact natRepr_ne_empty m
  | negSucc m =>
    show ("-" ++ toString (Nat.succ m) : String) ≠ ""
    intro h
    have := congrArg String.length h
    rw [String.length_append] at this
    have h1 : ("-".length : Nat) = 1 := rfl
    have h2 : ("".length : Nat) = 0 := rfl
    omega

theorem truthy_format_ne_empty (v : PyVal) (h : v.truthy = true) : v.format ≠ "" := by
  cases v with
  | none => simp [PyVal.truthy] at h
  | str s => simpa [PyVal.truthy] using h
  | int n => exact toString_int_ne_empty n
/-! ## Claim theorems -/

/-- C1: For every relation payload that lacks a value for at least one
required field (service-hostname, service-name, service-port), validation
rejects the payload and the blocked-status message lists exactly the missing
required fields, sorted alphabetically and joined with comma-and-space; a
payload with all required fields present is not rejected. -/
theorem C1_missing_required_fields (d : Dict) :
    (ingressRelationErrors d = true ↔
      ∃ f ∈ REQUIRED_INGRESS_RELATION_FIELDS, dictGet d f = PyVal.none)
    ∧ (∀ f, f ∈ missingFields d ↔
        f ∈ REQUIRED_INGRESS_RELATION_FIELDS ∧ dictGet d f = PyVal.none)
    ∧ List.Sorted (· ≤ ·) (missingFields d)
    ∧ blockedMessage d =
        "Missing fields for ingress: " ++ String.intercalate ", " (missingFields d) :=
  ⟨errors_iff d, mem_missingFields d, sorted_missingFields d, rfl⟩

/-- C3: For every canonical attribute, if the local configuration value is
truthy it wins; if it is absent or empty the cached relation value is used;
the namespace additionally falls back to the model's own name when both
sources are empty. -/
theorem C3_config_precedence (s : State) :
    (s.config.service_hostname.truthy = true →
        serviceHostname s = s.config.service_hostname)
    ∧ (s.config.service_hostname.truthy = false →
        serviceHostname s = dictGet s.ingress_relation_data "service-hostname")
    ∧ (s.config.service_name.truthy = true → serviceName s = s.config.service_name)
    ∧ (s.config.service_name.truthy = false →
        serviceName s = dictGet s.ingress_relation_data "service-name")
    ∧ (s.config.service_port.truthy = true → servicePort s = some s.config.service_port)
    ∧ (s.config.service_port.truthy = false →
        servicePort s =
          (pyInt (dictGet s.ingress_relation_data "service-port")).map PyVal.int)
    ∧ (s.config.service_namespace.truthy = true →
        theNamespace s = s.config.service_namespace)
    ∧ (s.config.service_namespace.truthy = false →
        (dictGet s.ingress_relation_data "service-namespace").truthy = true →
        theNamespace s = dictGet s.ingress_relation_data "service-namespace")
    ∧ (s.config.service_namespace.truthy = false →
        (dictGet s.ingress_relation_data "service-namespace").truthy = false →
        theNamespace s = PyVal.str s.modelName)
    ∧ (s.config.max_body_size.truthy = true →
        maxBodySize s = s.config.max_body_size.format ++ "m")
    ∧ (s.config.max_body_size.truthy = false →
        maxBodySize s =
          (if (dictGet s.ingress_relation_data "max-body-size").truthy then
            (dictGet s.ingress_relation_data "max-body-size").format ++ "m" else ""))
    ∧ (s.config.session_cookie_max_age.truthy = true →
        sessionCookieMaxAge s = s.config.session_cookie_max_age.format)
    ∧ (s.config.session_cookie_max_age.truthy = false →
        sessionCookieMaxAge s =
          (if (dictGet s.ingress_relation_data "session-cookie-max-age").truthy then
            (dictGet s.ingress_relation_data "session-cookie-max-age").format else ""))
    ∧ (s.config.tls_secret_name.truthy = true → tlsSecretName s = s.config.tls_secret_name)
    ∧ (s.config.tls_secret_name.truthy = false →
        tlsSecretName s = dictGet s.ingress_relation_data "tls-secret-name") := by
  refine ⟨?_, ?_, ?_, ?_, ?_, ?_, ?_, ?_, ?_, ?_, ?_, ?_, ?_, ?_, ?_⟩
  · intro h; simp [serviceHostname, pyOr, h]
  · intro h; simp [serviceHostname, pyOr, h]
  · intro h; simp [serviceName, pyOr, h]
  · intro h; simp [serviceName, pyOr, h]
  · intro h; simp [servicePort, h]
  · intro h; simp [servicePort, h]
  · intro h; simp [theNamespace, pyOr, h]
  · intro h h2; simp [theNamespace, pyOr, h, h2]
  · intro h h2; simp [theNamespace, pyOr, h, h2]
  · intro h; simp [maxBodySize, pyOr, h]
  · intro h; simp [maxBodySize, pyOr, h]
  · intro h; simp [sessionCookieMaxAge, pyOr, h]
  · intro h; simp [sessionCookieMaxAge, pyOr, h]
  · intro h; simp [tlsSecretName, pyOr, h]
  · intro h; simp [tlsSecretName, pyOr, h]

/-- Witness for C3 at concrete states: configuration wins when set, relation
data is used when it is not, and the namespace falls back to the model name
when both sources are empty. -/
theorem C3_config_precedence_witness :
    serviceHostname sBoth = PyVal.str "cfg-host"
    ∧ serviceHostname sRelOnly = PyVal.str "rel-host"
    ∧ serviceName sBoth = PyVal.str "cfg-name"
    ∧ serviceName sRelOnly = PyVal.str "rel-name"
    ∧ servicePort sBoth = some (PyVal.int 9000)
    ∧ servicePort sRelOnly = some (PyVal.int 8080)
    ∧ theNamespace sBoth = PyVal.str "cfg-ns"
    ∧ theNamespace sRelOnly = PyVal.str "rel-ns"
    ∧ theNamespace sEmpty = PyVal.str "the-model"
    ∧ maxBodySize sBoth = "10m"
    ∧ maxBodySize sRelOnly = "20m"
    ∧ sessionCookieMaxAge sBoth = "7200"
    ∧ sessionCookieMaxAge sRelOnly = "3600"
    ∧ tlsSecretName sBoth = PyVal.str "cfg-tls"
    ∧ tlsSecretName sRelOnly = PyVal.str "rel-tls" := by
  obtain ⟨h1, -, h3, -, h5, -, h7, -, -, h10, -, h12, -, h14, -⟩ :=
    C3_config_precedence sBoth
  obtain ⟨-, g2, -, g4, -, g6, -, g8, -, -, g11, -, g13, -, g15⟩ :=
    C3_config_precedence sRelOnly
  obtain ⟨-, -, -, -, -, -, -, -, e9, -, -, -, -, -, -⟩ :=
    C3_config_precedence sEmpty
  exact ⟨h1 (by decide), (g2 (by decide)).trans (by decide),
    h3 (by decide), (g4 (by decide)).trans (by decide),
    h5 (by decide), (g6 (by decide)).trans (by decide),
    h7 (by decide), (g8 (by decide) (by decide)).trans (by decide),
    e9 (by decide) (by decide),
    (h10 (by decide)).trans (by decide), (g11 (by decide)).trans (by decide),
    (h12 (by decide)).trans (by decide), (g13 (by decide)).trans (by decide),
    h14 (by decide), (g15 (by decide)).trans (by decide)⟩

/-- C10: Port resolution is asymmetric: a truthy configuration value is
returned unconverted, a cache-sourced value always goes through `int(...)`;
with no configured port, an absent or non-numeric cached value raises; a
cached payload that passed validation has a non-None service-port. -/
theorem C10_service_port_asymmetry :
    (∀ s : State, s.config.service_port.truthy = true →
        servicePort s = some s.config.service_port)
    ∧ (∀ s : State, s.config.service_port.truthy = false →
        servicePort s =
          (pyInt (dictGet s.ingress_relation_data "service-port")).map PyVal.int)
    ∧ (∀ s : State, s.config.service_port.truthy = false →
        dictGet s.ingress_relation_data "service-port" = PyVal.none →
        servicePort s = Option.none)
    ∧ (∀ (s : State) (v : String), s.config.service_port.truthy = false →
        dictGet s.ingress_relation_data "service-port" = PyVal.str v →
        pyIntOfString v = Option.none → servicePort s = Option.none)
    ∧ (∀ d : Dict, ingressRelationErrors d = false →
        dictGet d "service-port" ≠ PyVal.none) := by
  refine ⟨?_, ?_, ?_, ?_, ?_⟩
  · intro s h; simp [servicePort, h]
  · intro s h; simp [servicePort, h]
  · intro s h h2; simp [servicePort, h, h2, pyInt]
  · intro s v h h2 h3; simp [servicePort, h, h2, pyInt, h3]
  · intro d herr hnone
    have h1 : ingressRelationErrors d = true :=
      (errors_iff d).mpr ⟨"service-port", by simp [REQUIRED_INGRESS_RELATION_FIELDS], hnone⟩
    simp [h1] at herr

/-- Witness for C10 at concrete states: a configured port is returned as-is,
an absent cached port raises, a non-numeric cached port raises, and a
validated payload's port is non-None. -/
theorem C10_service_port_asymmetry_witness :
    servicePort sBoth = some (PyVal.int 9000)
    ∧ servicePort sRelOnly = some (PyVal.int 8080)
    ∧ servicePort sEmpty = Option.none
    ∧ servicePort sBadPort = Option.none
    ∧ dictGet relFull "service-port" ≠ PyVal.none := by
  obtain ⟨w1, w2, w3, w4, w5⟩ := C10_service_port_asymmetry
  exact ⟨w1 sBoth (by decide), (w2 sRelOnly (by decide)).trans (by decide),
    w3 sEmpty (by decide) (by decide),
    w4 sBadPort "eighty" (by decide) (by decide) (by decide),
    w5 relFull (by decide)⟩

/-- C8: A unit that is not the leader never issues a cluster mutation: the
relation-changed handler returns immediately with nothing changed, and the
config-changed handler skips the define/reconcile calls. -/
theorem C8_nonleader_never_mutates (cfg : Config) (stored : Dict)
    (modelName : String) (ev : Databag) (c : Cluster) (s : State) :
    onIngressRelationChanged cfg stored modelName false ev c
      = some { stored := stored, status := Option.none, calls := [] }
    ∧ onConfigChanged s false c
      = some { stored := s.ingress_relation_data
               status := some (Status.active "")
               calls := [] } := by
  constructor
  · rfl
  · rfl

theorem append_m_ne_empty (x : String) : x ++ "m" ≠ "" := by
  intro h
  have := congrArg String.length h
  rw [String.length_append] at this
  have h1 : ("m".length : Nat) = 1 := rfl
  have h2 : ("".length : Nat) = 0 := rfl
  omega

theorem upper_isSome_of_annotations (s : State) (anns : List (String × String))
    (h : ingressAnnotations s = some anns) (hc : sessionCookieMaxAge s ≠ "") :
    ∃ u, (serviceName s).upper = some u := by
  unfold ingressAnnotations preTlsAnnotations at h
  rw [if_pos hc] at h
  cases hu : (serviceName s).upper with
  | none => rw [hu] at h; simp at h
  | some u => exact ⟨u, rfl⟩

theorem maxBodySize_truthy (s : State) :
    (maxBodySize s ≠ "") =
      ((pyOr s.config.max_body_size
        (dictGet s.ingress_relation_data "max-body-size")).truthy = true) := by
  unfold maxBodySize
  cases ht : (pyOr s.config.max_body_size
      (dictGet s.ingress_relation_data "max-body-size")).truthy
  · simp [ht]
  · simp [ht, append_m_ne_empty]

theorem sessionCookie_truthy (s : State) :
    (sessionCookieMaxAge s ≠ "") =
      ((pyOr s.config.session_cookie_max_age
        (dictGet s.ingress_relation_data "session-cookie-max-age")).truthy = true) := by
  unfold sessionCookieMaxAge
  cases ht : (pyOr s.config.session_cookie_max_age
      (dictGet s.ingress_relation_data "session-cookie-max-age")).truthy
  · simp [ht]
  · simp [ht, truthy_format_ne_empty _ ht]

/-- C5: For every built ingress, exactly one of the two TLS outcomes holds:
a truthy tls-secret-name attaches the TLS block (service hostname plus secret
name) and suppresses the ssl-redirect annotation; otherwise ssl-redirect=false
is present and no TLS block is attached — never both, never neither. -/
theorem C5_tls_mutually_exclusive (s : State) (ing : V1Ingress)
    (h : getK8sIngress s = some ing) :
    ((tlsSecretName s).truthy = true →
        ing.spec.tls =
          some { hosts := [serviceHostname s], secret_name := tlsSecretName s }
        ∧ ing.annotations.lookup "nginx.ingress.kubernetes.io/ssl-redirect" = Option.none)
    ∧ ((tlsSecretName s).truthy = false →
        ing.spec.tls = Option.none
        ∧ ing.annotations.lookup "nginx.ingress.kubernetes.io/ssl-redirect" = some "false")
    ∧ ing.spec.tls.isSome
        = !(ing.annotations.lookup "nginx.ingress.kubernetes.io/ssl-redirect").isSome := by
  obtain ⟨port, anns, hp, ha, rfl⟩ := getK8sIngress_eq s ing h
  have hssl := (annotations_lookup s anns ha).2.2.2.2.2.2.2.2
  cases ht : (tlsSecretName s).truthy
  · rw [ht] at hssl
    simp only [Bool.false_eq_true, if_false] at hssl
    refine ⟨fun htr => absurd htr (by simp),
      fun _ => ⟨by simp [buildIngress, ht], hssl⟩, ?_⟩
    simp [buildIngress, ht, hssl]
  · rw [ht] at hssl
    simp only [if_true] at hssl
    refine ⟨fun _ => ⟨by simp [buildIngress, ht], hssl⟩,
      fun hf => absurd hf (by simp), ?_⟩
    simp [buildIngress, ht, hssl]

/-- Witness for C5: the state with a configured tls secret gets the TLS block
and no ssl-redirect annotation. -/
theorem C5_tls_mutually_exclusive_witness :
    ingBoth.spec.tls =
      some { hosts := [serviceHostname sBoth], secret_name := tlsSecretName sBoth }
    ∧ ingBoth.annotations.lookup "nginx.ingress.kubernetes.io/ssl-redirect"
        = Option.none :=
  (C5_tls_mutually_exclusive sBoth ingBoth (by decide)).1 (by decide)

/-- C6 (amended): rewrite-target is always present; proxy-body-size is present
iff max-body-size resolves truthy, valued as the resolved value suffixed `m`;
the SIX sticky-session annotations are present iff session-cookie-max-age
resolves truthy, with the cookie name the upper-cased service name plus
`_AFFINITY`. -/
theorem C6_annotation_rules (s : State) (ing : V1Ingress)
    (h : getK8sIngress s = some ing) :
    ing.annotations.lookup "nginx.ingress.kubernetes.io/rewrite-target" = some "/"
    ∧ ((pyOr s.config.max_body_size
          (dictGet s.ingress_relation_data "max-body-size")).truthy = true →
        ing.annotations.lookup "nginx.ingress.kubernetes.io/proxy-body-size" =
          some ((pyOr s.config.max_body_size
            (dictGet s.ingress_relation_data "max-body-size")).format ++ "m"))
    ∧ ((pyOr s.config.max_body_size
          (dictGet s.ingress_relation_data "max-body-size")).truthy = false →
        ing.annotations.lookup "nginx.ingress.kubernetes.io/proxy-body-size"
          = Option.none)
    ∧ ((pyOr s.config.session_cookie_max_age
          (dictGet s.ingress_relation_data "session-cookie-max-age")).truthy = true →
        ing.annotations.lookup "nginx.ingress.kubernetes.io/affinity" = some "cookie"
        ∧ ing.annotations.lookup "nginx.ingress.kubernetes.io/affinity-mode"
            = some "balanced"
        ∧ ing.annotations.lookup
            "nginx.ingress.kubernetes.io/session-cookie-change-on-failure" = some "true"
        ∧ ing.annotations.lookup "nginx.ingress.kubernetes.io/session-cookie-max-age"
            = some (sessionCookieMaxAge s)
        ∧ (∃ u, (serviceName s).upper = some u
            ∧ ing.annotations.lookup "nginx.ingress.kubernetes.io/session-cookie-name"
                = some (u ++ "_AFFINITY"))
        ∧ ing.annotations.lookup "nginx.ingress.kubernetes.io/session-cookie-samesite"
            = some "Lax")
    ∧ ((pyOr s.config.session_cookie_max_age
          (dictGet s.ingress_relation_data "session-cookie-max-age")).truthy = false →
        ing.annotations.lookup "nginx.ingress.kubernetes.io/affinity" = Option.none
        ∧ ing.annotations.lookup "nginx.ingress.kubernetes.io/affinity-mode" = Option.none
        ∧ ing.annotations.lookup
            "nginx.ingress.kubernetes.io/session-cookie-change-on-failure" = Option.none
        ∧ ing.annotations.lookup "nginx.ingress.kubernetes.io/session-cookie-max-age"
            = Option.none
        ∧ ing.annotations.lookup "nginx.ingress.kubernetes.io/session-cookie-name"
            = Option.none
        ∧ ing.annotations.lookup "nginx.ingress.kubernetes.io/session-cookie-samesite"
            = Option.none) := by
  obtain ⟨port, anns, hp, ha, rfl⟩ := getK8sIngress_eq s ing h
  obtain ⟨l1, l2, l3, l4, l5, l6, l7, l8, -⟩ := annotations_lookup s anns ha
  have hbt := maxBodySize_truthy s
  have hct := sessionCookie_truthy s
  refine ⟨l1, ?_, ?_, ?_, ?_⟩
  · intro htr
    rw [show (buildIngress s port anns).annotations = anns from rfl, l2, if_pos (by rw [hbt]; exact htr)]
    unfold maxBodySize
    rw [if_pos htr]
  · intro hf
    rw [show (buildIngress s port anns).annotations = anns from rfl, l2, if_neg]
    rw [hbt, hf]
    simp
  · intro htr
    have hc : sessionCookieMaxAge s ≠ "" := by rw [hct]; exact htr
    obtain ⟨u, hu⟩ := upper_isSome_of_annotations s anns ha hc
    refine ⟨by rw [show (buildIngress s port anns).annotations = anns from rfl, l3, if_pos hc],
      by rw [show (buildIngress s port anns).annotations = anns from rfl, l4, if_pos hc],
      by rw [show (buildIngress s port anns).annotations = anns from rfl, l5, if_pos hc],
      by rw [show (buildIngress s port anns).annotations = anns from rfl, l6, if_pos hc],
      ⟨u, hu, ?_⟩,
      by rw [show (buildIngress s port anns).annotations = anns from rfl, l8, if_pos hc]⟩
    rw [show (buildIngress s port anns).annotations = anns from rfl, l7, if_pos hc, hu]
    rfl
  · intro hf
    have hc : ¬(sessionCookieMaxAge s ≠ "") := by rw [hct, hf]; simp
    exact ⟨by rw [show (buildIngress s port anns).annotations = anns from rfl, l3, if_neg hc],
      by rw [show (buildIngress s port anns).annotations = anns from rfl, l4, if_neg hc],
      by rw [show (buildIngress s port anns).annotations = anns from rfl, l5, if_neg hc],
      by rw [show (buildIngress s port anns).annotations = anns from rfl, l6, if_neg hc],
      by rw [show (buildIngress s port anns).annotations = anns from rfl, l7, if_neg hc],
      by rw [show (buildIngress s port anns).annotations = anns from rfl, l8, if_neg hc]⟩

/-- Witness for C6: the sticky-cookie state has the affinity annotations (name
WEB_AFFINITY) and no proxy-body-size annotation. -/
theorem C6_annotation_rules_witness :
    ingCookie.annotations.lookup "nginx.ingress.kubernetes.io/rewrite-target" = some "/"
    ∧ ingCookie.annotations.lookup "nginx.ingress.kubernetes.io/proxy-body-size"
        = Option.none
    ∧ ingCookie.annotations.lookup "nginx.ingress.kubernetes.io/affinity"
        = some "cookie" := by
  obtain ⟨w1, -, w3, w4, -⟩ := C6_annotation_rules sCookie ingCookie (by decide)
  exact ⟨w1, w3 (by decide), (w4 (by decide)).1⟩

/-- C6 counterexample: with session-cookie-max-age set, the built ingress
carries SIX sticky-session annotations, not five as the claim counts them. -/
theorem C6_five_annotations_counterexample :
    (getK8sIngress sCookie).map (fun ing =>
      (["nginx.ingress.kubernetes.io/affinity",
        "nginx.ingress.kubernetes.io/affinity-mode",
        "nginx.ingress.kubernetes.io/session-cookie-change-on-failure",
        "nginx.ingress.kubernetes.io/session-cookie-max-age",
        "nginx.ingress.kubernetes.io/session-cookie-name",
        "nginx.ingress.kubernetes.io/session-cookie-samesite"].filter
          (fun k => (ing.annotations.lookup k).isSome)).length) = some 6
    ∧ (getK8sIngress sCookie).map (fun ing =>
      (["nginx.ingress.kubernetes.io/affinity",
        "nginx.ingress.kubernetes.io/affinity-mode",
        "nginx.ingress.kubernetes.io/session-cookie-change-on-failure",
        "nginx.ingress.kubernetes.io/session-cookie-max-age",
        "nginx.ingress.kubernetes.io/session-cookie-name",
        "nginx.ingress.kubernetes.io/session-cookie-samesite"].filter
          (fun k => (ing.annotations.lookup k).isSome)).length) ≠ some 5 := by
  constructor
  · decide
  · decide

/-- C7: deterministic naming and the cross-resource invariant: the Service is
`<service-name>-service`, the Ingress `<ingress-base>-ingress` with the base
falling back from config to cached relation data, and the Ingress backend
references exactly the Service's name and its single port, which maps port to
target port identically. -/
theorem C7_names_and_backend (s : State) (svc : V1Service) (ing : V1Ingress)
    (hs : getK8sService s = some svc) (hi : getK8sIngress s = some ing) :
    svc.name = (serviceName s).format ++ "-service"
    ∧ ing.name = (pyOr s.config.service_name
        (dictGet s.ingress_relation_data "service-name")).format ++ "-ingress"
    ∧ ∃ sp, svc.ports = [sp] ∧ sp.target_port = sp.port
        ∧ ∃ rule pathItem, ing.spec.rules = [rule] ∧ rule.paths = [pathItem]
          ∧ pathItem.backend.service_name = svc.name
          ∧ pathItem.backend.service_port = sp.port := by
  obtain ⟨port, anns, hp, ha, rfl⟩ := getK8sIngress_eq s ing hi
  unfold getK8sService at hs
  rw [hp] at hs
  simp only [Option.map_some', Option.some.injEq] at hs
  subst hs
  exact ⟨rfl, rfl, _, rfl, rfl, _, _, rfl, rfl, rfl, rfl⟩

/-- Witness for C7: concrete names for the cache-driven state. -/
theorem C7_names_and_backend_witness :
    svcRelOnly.name = "rel-name-service" ∧ ingRelOnly.name = "rel-name-ingress" := by
  obtain ⟨w1, w2, -⟩ :=
    C7_names_and_backend sRelOnly svcRelOnly ingRelOnly (by decide) (by decide)
  exact ⟨w1.trans (by decide), w2.trans (by decide)⟩

theorem defineService_shape (s : State) (c : Cluster) (calls : List ApiCall)
    (h : defineService s c = some calls) :
    ∃ body, getK8sService s = some body ∧ body.name = k8sServiceName s ∧
      calls = (if k8sServiceName s ∈ listServiceNames s c then
        [ApiCall.listServices (theNamespace s),
         ApiCall.patchService (k8sServiceName s) (theNamespace s) body]
       else
        [ApiCall.listServices (theNamespace s),
         ApiCall.createService (theNamespace s) body]) := by
  unfold defineService at h
  cases hb : getK8sService s with
  | none => rw [hb] at h; simp at h
  | some body =>
    rw [hb] at h
    simp only [Option.map_some', Option.some.injEq] at h
    have hb0 := hb
    unfold getK8sService at hb
    cases hp : servicePort s with
    | none => rw [hp] at hb; simp at hb
    | some port =>
      rw [hp] at hb
      simp only [Option.map_some', Option.some.injEq] at hb
      subst hb
      exact ⟨_, rfl, rfl, h.symm⟩

theorem defineIngress_shape (s : State) (c : Cluster) (calls : List ApiCall)
    (h : defineIngress s c = some calls) :
    ∃ body, getK8sIngress s = some body ∧ body.name = ingressName s ∧
      calls = (if ingressName s ∈ listIngressNames s c then
        [ApiCall.listIngresses (theNamespace s),
         ApiCall.patchIngress (ingressName s) (theNamespace s) body]
       else
        [ApiCall.listIngresses (theNamespace s),
         ApiCall.createIngress (theNamespace s) body]) := by
  unfold defineIngress at h
  cases hb : getK8sIngress s with
  | none => rw [hb] at h; simp at h
  | some body =>
    rw [hb] at h
    simp only [Option.map_some', Option.some.injEq] at h
    obtain ⟨port, anns, hp, ha, rfl⟩ := getK8sIngress_eq s body hb
    exact ⟨_, rfl, rfl, h.symm⟩

theorem applyCalls_patch_neutral_service (s : State) (c : Cluster) (body : V1Service) :
    applyCalls c [ApiCall.listServices (theNamespace s),
      ApiCall.patchService (k8sServiceName s) (theNamespace s) body] = c := rfl

theorem applyCalls_patch_neutral_ingress (s : State) (c : Cluster) (body : V1Ingress) :
    applyCalls c [ApiCall.listIngresses (theNamespace s),
      ApiCall.patchIngress (ingressName s) (theNamespace s) body] = c := rfl

theorem listServiceNames_after_create (s : State) (c : Cluster) (body : V1Service) :
    listServiceNames s (applyCalls c [ApiCall.listServices (theNamespace s),
        ApiCall.createService (theNamespace s) body])
      = body.name :: listServiceNames s c := by
  simp [applyCalls, applyCall, listServiceNames]

theorem listIngressNames_after_create (s : State) (c : Cluster) (body : V1Ingress) :
    listIngressNames s (applyCalls c [ApiCall.listIngresses (theNamespace s),
        ApiCall.createIngress (theNamespace s) body])
      = body.name :: listIngressNames s c := by
  simp [applyCalls, applyCall, listIngressNames]

/-- C4: Each reconcile flow lists existing resources first; a resource whose
deterministic name is listed gets exactly one patch and no create, an unlisted
one exactly one create; re-running against the cluster produced by the first
run issues exactly one patch and no create. -/
theorem C4_create_or_patch (s : State) (c : Cluster) :
    (∀ calls, defineService s c = some calls →
      calls.head? = some (ApiCall.listServices (theNamespace s))
      ∧ (k8sServiceName s ∈ listServiceNames s c →
          (calls.filter ApiCall.isPatch).length = 1
          ∧ (calls.filter ApiCall.isCreate).length = 0)
      ∧ (k8sServiceName s ∉ listServiceNames s c →
          (calls.filter ApiCall.isCreate).length = 1
          ∧ (calls.filter ApiCall.isPatch).length = 0)
      ∧ (∀ calls2, defineService s (applyCalls c calls) = some calls2 →
          (calls2.filter ApiCall.isPatch).length = 1
          ∧ (calls2.filter ApiCall.isCreate).length = 0))
    ∧ (∀ calls, defineIngress s c = some calls →
      calls.head? = some (ApiCall.listIngresses (theNamespace s))
      ∧ (ingressName s ∈ listIngressNames s c →
          (calls.filter ApiCall.isPatch).length = 1
          ∧ (calls.filter ApiCall.isCreate).length = 0)
      ∧ (ingressName s ∉ listIngressNames s c →
          (calls.filter ApiCall.isCreate).length = 1
          ∧ (calls.filter ApiCall.isPatch).length = 0)
      ∧ (∀ calls2, defineIngress s (applyCalls c calls) = some calls2 →
          (calls2.filter ApiCall.isPatch).length = 1
          ∧ (calls2.filter ApiCall.isCreate).length = 0)) := by
  constructor
  · intro calls hc
    obtain ⟨body, hb, hname, hcalls⟩ := defineService_shape s c calls hc
    by_cases hm : k8sServiceName s ∈ listServiceNames s c
    · rw [if_pos hm] at hcalls
      subst hcalls
      refine ⟨rfl, fun _ => ⟨rfl, rfl⟩, fun hnm => absurd hm hnm, ?_⟩
      intro calls2 h2
      rw [applyCalls_patch_neutral_service] at h2
      obtain ⟨body2, hb2, hname2, hcalls2⟩ := defineService_shape s c calls2 h2
      rw [if_pos hm] at hcalls2
      subst hcalls2
      exact ⟨rfl, rfl⟩
    · rw [if_neg hm] at hcalls
      subst hcalls
      refine ⟨rfl, fun hmem => absurd hmem hm, fun _ => ⟨rfl, rfl⟩, ?_⟩
      intro calls2 h2
      obtain ⟨body2, hb2, hname2, hcalls2⟩ := defineService_shape s _ calls2 h2
      have hmem2 : k8sServiceName s ∈ listServiceNames s
          (applyCalls c [ApiCall.listServices (theNamespace s),
            ApiCall.createService (theNamespace s) body]) := by
        rw [listServiceNames_after_create, hname]
        exact List.mem_cons_self _ _
      rw [if_pos hmem2] at hcalls2
      subst hcalls2
      exact ⟨rfl, rfl⟩
  · intro calls hc
    obtain ⟨body, hb, hname, hcalls⟩ := defineIngress_shape s c calls hc
    by_cases hm : ingressName s ∈ listIngressNames s c
    · rw [if_pos hm] at hcalls
      subst hcalls
      refine ⟨rfl, fun _ => ⟨rfl, rfl⟩, fun hnm => absurd hm hnm, ?_⟩
      intro calls2 h2
      rw [applyCalls_patch_neutral_ingress] at h2
      obtain ⟨body2, hb2, hname2, hcalls2⟩ := defineIngress_shape s c calls2 h2
      rw [if_pos hm] at hcalls2
      subst hcalls2
      exact ⟨rfl, rfl⟩
    · rw [if_neg hm] at hcalls
      subst hcalls
      refine ⟨rfl, fun hmem => absurd hmem hm, fun _ => ⟨rfl, rfl⟩, ?_⟩
      intro calls2 h2
      obtain ⟨body2, hb2, hname2, hcalls2⟩ := defineIngress_shape s _ calls2 h2
      have hmem2 : ingressName s ∈ listIngressNames s
          (applyCalls c [ApiCall.listIngresses (theNamespace s),
            ApiCall.createIngress (theNamespace s) body]) := by
        rw [listIngressNames_after_create, hname]
        exact List.mem_cons_self _ _
      rw [if_pos hmem2] at hcalls2
      subst hcalls2
      exact ⟨rfl, rfl⟩

/-- Witness for C4: on an empty cluster the first service reconcile issues one
create and no patch; the second, against the resulting cluster, one patch and
no create. -/
theorem C4_create_or_patch_witness :
    (callsFirst.filter ApiCall.isCreate).length = 1
    ∧ (callsFirst.filter ApiCall.isPatch).length = 0
    ∧ (callsSecond.filter ApiCall.isPatch).length = 1
    ∧ (callsSecond.filter ApiCall.isCreate).length = 0 := by
  obtain ⟨w, -⟩ := C4_create_or_patch sRelOnly emptyCluster
  obtain ⟨-, -, h3, h4⟩ := w callsFirst (by decide)
  exact ⟨(h3 (by decide)).1, (h3 (by decide)).2,
    (h4 callsSecond (by decide)).1, (h4 callsSecond (by decide)).2⟩

/-- C2 (amended): a relation payload in which a required field maps to no
value (None) is rejected atomically by the leader handler: cache unchanged,
blocked status, no cluster call; and the cache is replaced only when
validation passes.  (An empty-string value, by contrast, passes validation —
see the counterexample.) -/
theorem C2_rejected_payload_untouched (cfg : Config) (stored : Dict)
    (modelName : String) (ev : Databag) (c : Cluster) :
    ((∃ f ∈ REQUIRED_INGRESS_RELATION_FIELDS, databagGet ev f = PyVal.none) →
      onIngressRelationChanged cfg stored modelName true ev c
        = some { stored := stored,
                 status := some (Status.blocked (blockedMessage (changedDict ev))),
                 calls := [] })
    ∧ (∀ (leader : Bool) (r : HandlerResult),
        onIngressRelationChanged cfg stored modelName leader ev c = some r →
        r.stored ≠ stored → ingressRelationErrors (changedDict ev) = false) := by
  constructor
  · rintro ⟨f, hmem, hval⟩
    have herr : ingressRelationErrors (changedDict ev) = true :=
      (errors_iff _).mpr ⟨f, hmem, by
        rw [dictGet_changedDict ev f (List.mem_append_left _ hmem)]; exact hval⟩
    unfold onIngressRelationChanged
    simp [herr]
  · intro leader r hr hst
    cases leader
    · rw [show onIngressRelationChanged cfg stored modelName false ev c
          = some { stored := stored, status := Option.none, calls := [] } from rfl] at hr
      rw [Option.some.injEq] at hr
      exact absurd (by rw [← hr]) hst
    · by_cases herr : ingressRelationErrors (changedDict ev) = true
      · unfold onIngressRelationChanged at hr
        rw [if_neg (by simp)] at hr
        rw [if_pos herr] at hr
        rw [Option.some.injEq] at hr
        exact absurd (by rw [← hr]) hst
      · simpa using herr

/-- Witness for C2: a payload missing two required fields leaves the cache
and issues nothing. -/
theorem C2_rejected_payload_untouched_witness :
    onIngressRelationChanged emptyConfig relFull "the-model" true evMissing emptyCluster
      = some { stored := relFull,
               status := some (Status.blocked (blockedMessage (changedDict evMissing))),
               calls := [] } :=
  (C2_rejected_payload_untouched emptyConfig relFull "the-model" evMissing
    emptyCluster).1 ⟨"service-hostname", by decide, by decide⟩

/-- C2 counterexample: a payload whose required service-hostname carries an
EMPTY value passes validation, so the leader handler replaces the cache and
issues cluster mutations — the claim's "including an empty value" fails on
the code. -/
theorem C2_empty_value_counterexample :
    ingressRelationErrors (changedDict evEmptyHostname) = false
    ∧ databagGet evEmptyHostname "service-hostname" = PyVal.str ""
    ∧ (onIngressRelationChanged emptyConfig [] "the-model" true evEmptyHostname
        emptyCluster).isSome = true
    ∧ (onIngressRelationChanged emptyConfig [] "the-model" true evEmptyHostname
        emptyCluster).map HandlerResult.stored ≠ some []
    ∧ (onIngressRelationChanged emptyConfig [] "the-model" true evEmptyHostname
        emptyCluster).map (fun r => r.calls.filter ApiCall.isMutation) ≠ some [] := by
  exact ⟨by decide, by decide, by decide, by decide, by decide⟩

theorem missingFields_congr (d1 d2 : Dict)
    (h : ∀ f ∈ REQUIRED_INGRESS_RELATION_FIELDS, dictGet d1 f = dictGet d2 f) :
    missingFields d1 = missingFields d2 := by
  unfold missingFields
  congr 1
  exact List.filter_congr (fun f hf => by rw [h f hf])

theorem canonical_congr (cfg : Config) (d1 d2 : Dict) (mn : String)
    (h : ∀ f ∈ ALL_INGRESS_RELATION_FIELDS, dictGet d1 f = dictGet d2 f) :
    canonical { config := cfg, ingress_relation_data := d1, modelName := mn }
      = canonical { config := cfg, ingress_relation_data := d2, modelName := mn } := by
  unfold canonical serviceHostname serviceName servicePort theNamespace
    maxBodySize sessionCookieMaxAge tlsSecretName
  dsimp only
  rw [h "service-hostname" (by decide), h "service-name" (by decide),
    h "service-port" (by decide), h "service-namespace" (by decide),
    h "max-body-size" (by decide), h "session-cookie-max-age" (by decide),
    h "tls-secret-name" (by decide)]

/-- C9 (amended): on upgrade the handler re-reads the LIVE relation databag
(the StoredState cache is reset by the upgrade) and re-validates it; when the
relation still carries the payload that was previously cached and no local
configuration is set, the canonical state after the upgrade equals the
previously cached canonical state without a fresh relation-changed event. -/
theorem C9_upgrade_resync (p : Databag) (modelName : String)
    (h : ingressRelationErrors (changedDict p) = false) :
    (onUpgradeCharm (some p)).1 = dictOfDatabag p
    ∧ canonical { config := emptyConfig,
                  ingress_relation_data := (onUpgradeCharm (some p)).1,
                  modelName := modelName }
      = canonical { config := emptyConfig,
                    ingress_relation_data := changedDict p,
                    modelName := modelName } := by
  have hagree : ∀ f ∈ ALL_INGRESS_RELATION_FIELDS,
      dictGet (dictOfDatabag p) f = dictGet (changedDict p) f := by
    intro f hf
    rw [dictGet_dictOfDatabag, dictGet_changedDict p f hf]
  have herr2 : ingressRelationErrors (dictOfDatabag p) = false := by
    unfold ingressRelationErrors at h ⊢
    rw [missingFields_congr (dictOfDatabag p) (changedDict p)
      (fun f hf => hagree f (List.mem_append_left _ hf))]
    exact h
  have hstored : (onUpgradeCharm (some p)).1 = dictOfDatabag p := by
    simp only [onUpgradeCharm, getIngressRelationData, herr2, Bool.false_eq_true, if_false]
  refine ⟨hstored, ?_⟩
  rw [hstored]
  exact canonical_congr emptyConfig _ _ modelName hagree

/-- Witness for C9: the pre-upgrade payload revalidates and reproduces the
same canonical state after the upgrade. -/
theorem C9_upgrade_resync_witness :
    (onUpgradeCharm (some relBefore)).1 = dictOfDatabag relBefore
    ∧ canonical { config := emptyConfig,
                  ingress_relation_data := (onUpgradeCharm (some relBefore)).1,
                  modelName := "the-model" }
      = canonical { config := emptyConfig,
                    ingress_relation_data := changedDict relBefore,
                    modelName := "the-model" } :=
  C9_upgrade_resync relBefore "the-model" (by decide)

/-- C9 counterexample: a valid payload was cached, no configuration is set,
yet the canonical state after an upgrade does NOT come from the cache alone:
the handler follows the live relation data, which has since changed. -/
theorem C9_cache_alone_counterexample :
    ingressRelationErrors (changedDict relBefore) = false
    ∧ canonical { config := emptyConfig,
                  ingress_relation_data := (onUpgradeCharm (some relAtUpgrade)).1,
                  modelName := "the-model" }
      ≠ canonical { config := emptyConfig,
                    ingress_relation_data := changedDict relBefore,
                    modelName := "the-model" } := by
  exact ⟨by decide, by decide⟩
end Charm
